import Mathlib

/-!
Verification of the Perry PII-masking repository against its design
specification.

The four Python source files are shallowly embedded below:

* `PanMasking` — `pan_masking_server.py` (`mask_pan_in_image`, lines 72-121);
* `Unified` — `unified_pii_server.py` (`mask_pii_in_image`, `classify_url`);
* `DocumentMasking` — `document_masking_server.py` (`mask_pii_in_image`,
  `images_to_pdf`, `mask_document`, `load_model`);
* `MlApi` — `ml_api_server.py` (`classify_url`).

A page is modelled as a raster image: a width, a height and a total pixel
function (OpenCV `ndarray` of shape `height × width`; the three colour
channels are collapsed into one abstract pixel value, which is faithful for
every property below since the code treats channels uniformly).  The external
`cv2.GaussianBlur` is an opaque image transformer, so the masking engines are
parametrised by an arbitrary `blur : Image → Image`; the YOLO detector call
(`model(img, conf=0.5)`) together with the lazy `load_model()` is summarised
by an `Except Unit (List Box)` value — `Except.error` models the
`ModelUnavailable` exception caught by the engine's `try/except`.
Detection coordinates are the integers produced by `map(int, box)`.
-/

/-- A raster page: `pix y x` is the pixel at row `y`, column `x`. -/
structure Image where
  width : Nat
  height : Nat
  pix : Nat → Nat → Int

/-- A detection box as produced by `r.boxes.xyxy` after `map(int, box)`,
together with the confidence score and class id the code binds (and never
uses) in the masking loop. -/
structure Box where
  x1 : Int
  y1 : Int
  x2 : Int
  y2 : Int
  conf : Rat
  cls : Nat

/-- `roi = img[b1:b2, a1:a2]` for already-clipped nonnegative bounds:
the sub-image of width `a2 - a1` and height `b2 - b1` whose pixel `(y, x)`
is the page's pixel `(b1 + y, a1 + x)`. -/
def extractRoi (img : Image) (a1 b1 a2 b2 : Nat) : Image :=
  ⟨a2 - a1, b2 - b1, fun y x => img.pix (b1 + y) (a1 + x)⟩

/-- `img[b1:b2, a1:a2] = roi`: numpy slice assignment writes `roi` into the
rectangle `[a1, a2) × [b1, b2)` and leaves every other pixel untouched. -/
def writeRoi (img : Image) (a1 b1 a2 b2 : Nat) (roi : Image) : Image :=
  ⟨img.width, img.height, fun y x =>
    if a1 ≤ x ∧ x < a2 ∧ b1 ≤ y ∧ y < b2 then roi.pix (y - b1) (x - a1)
    else img.pix y x⟩

namespace PanMasking

/-- The body of the detection loop of `pan_masking_server.mask_pan_in_image`
(lines 90-114) and of `unified_pii_server.mask_pii_in_image` (lines 262-283),
which are textually identical up to log strings: clip each box to the page
bounds (`x1 = max(0, x1)`, `y1 = max(0, y1)`, `x2 = min(img.shape[1], x2)`,
`y2 = min(img.shape[0], y2)`), skip it unless `x2 > x1 and y2 > y1`, then
extract the ROI from the working copy, check `roi.size > 0`, blur, write the
blurred ROI back at the same coordinates and increment `detection_count`.
`w`, `h` are the dimensions of the function argument `img`, against which the
code clips. -/
def maskLoop (blur : Image → Image) (w h : Nat) (acc : Image) (cnt : Nat) :
    List Box → Image × Nat
  | [] => (acc, cnt)
  | b :: rest =>
    let x1 : Int := max 0 b.x1
    let y1 : Int := max 0 b.y1
    let x2 : Int := min (w : Int) b.x2
    let y2 : Int := min (h : Int) b.y2
    if x2 > x1 ∧ y2 > y1 then
      let roi := extractRoi acc x1.toNat y1.toNat x2.toNat y2.toNat
      if 0 < roi.width * roi.height then
        maskLoop blur w h
          (writeRoi acc x1.toNat y1.toNat x2.toNat y2.toNat (blur roi))
          (cnt + 1) rest
      else maskLoop blur w h acc cnt rest
    else maskLoop blur w h acc cnt rest

/-- `pan_masking_server.mask_pan_in_image` (lines 72-121): on a successful
detector call run the masking loop on a copy of the page starting from count
0; if `load_model()` or the prediction raises, the `except` branch returns
the original page with count 0. -/
def mask_pan_in_image (blur : Image → Image)
    (detect : Except Unit (List Box)) (img : Image) : Image × Nat :=
  match detect with
  | .error _ => (img, 0)
  | .ok boxes => maskLoop blur img.width img.height img 0 boxes

end PanMasking

namespace Unified

/-- `unified_pii_server.mask_pii_in_image` (lines 239-290): identical masking
logic to `pan_masking_server.mask_pan_in_image`, shared for both the aadhar
and the pan model; the `model_type` argument only selects which lazily loaded
model produces `detect`. -/
def mask_pii_in_image (blur : Image → Image)
    (detect : Except Unit (List Box)) (img : Image) : Image × Nat :=
  match detect with
  | .error _ => (img, 0)
  | .ok boxes => PanMasking.maskLoop blur img.width img.height img 0 boxes

end Unified

/-- The per-page loop of the PDF branches of the dispatcher endpoints
(`document_masking_server.mask_document` lines 145-148,
`unified_pii_server.mask_aadhar_document` lines 395-398 and
`mask_pan_document` lines 463-466): mask each page in order, collect the
masked pages and accumulate `total_detections`. -/
def processPdfPages (maskPage : Image → Image × Nat) :
    List Image → List Image × Nat
  | [] => ([], 0)
  | pg :: rest =>
    let r := maskPage pg
    let rs := processPdfPages maskPage rest
    (r.1 :: rs.1, r.2 + rs.2)

/-- The post-clip survival test of the clipped masking engines: after
`x1 = max(0, x1)`, `x2 = min(width, x2)` (and likewise for `y`), the box is
applied iff `x2 > x1 and y2 > y1`. -/
def survivesClip (w h : Nat) (b : Box) : Bool :=
  decide (max 0 b.x1 < min (w : Int) b.x2) &&
  decide (max 0 b.y1 < min (h : Int) b.y2)

/-- Number of boxes of a detection list that survive clipping against a
`w × h` page; this is the count the specification's count-correctness
property talks about ("boxes that survived clipping on that page"). -/
def countSurvived (w h : Nat) : List Box → Nat
  | [] => 0
  | b :: rest => (if survivesClip w h b then 1 else 0) + countSurvived w h rest

/-- The specification-side per-page detection count ("number of boxes on that
page that survived clipping", zero when the detector is unavailable),
following the spec's words for the count-correctness property. -/
def specPageCount (detect : Image → Except Unit (List Box)) (pg : Image) :
    Nat :=
  match detect pg with
  | .error _ => 0
  | .ok boxes => countSurvived pg.width pg.height boxes

namespace DocumentMasking

/-- Resolution of a numpy slice boundary `i` against an axis of length `n`:
a negative index counts from the end (`max 0 (n + i)`), a nonnegative one is
clamped to `n`.  Used by `document_masking_server.mask_pii_in_image`, whose
`roi = processed_img[y1:y2, x1:x2]` slices with the raw detector coordinates
(the function performs no clipping of its own). -/
def npBound (n : Nat) (i : Int) : Nat :=
  if i < 0 then ((n : Int) + i).toNat else min n i.toNat

/-- Whether the numpy slice `img[y1:y2, x1:x2]` of a `w × h` page is
nonempty.  `cv2.GaussianBlur` raises on an empty input array, which the
enclosing `try/except` of `mask_pii_in_image` turns into the
`return img, 0` fallback. -/
def docRoiNonempty (w h : Nat) (b : Box) : Bool :=
  decide (npBound h b.y1 < npBound h b.y2) &&
  decide (npBound w b.x1 < npBound w b.x2)

/-- One iteration of the box loop of `document_masking_server`'s
`mask_pii_in_image` (lines 83-87): slice the ROI with the raw coordinates,
blur it, and assign it back to the same slice of the working copy. -/
def docApply (blur : Image → Image) (w h : Nat) (acc : Image) (b : Box) :
    Image :=
  writeRoi acc (npBound w b.x1) (npBound h b.y1) (npBound w b.x2)
    (npBound h b.y2)
    (blur (extractRoi acc (npBound w b.x1) (npBound h b.y1) (npBound w b.x2)
      (npBound h b.y2)))

/-- `document_masking_server.mask_pii_in_image` (lines 71-95): sets
`detection_count = len(boxes)` before the loop (no per-box clipping and no
skip test), blurs every numpy-nonempty ROI slice in order, and returns the
processed copy with that count.  If any ROI slice is empty,
`cv2.GaussianBlur` raises and the `except` branch returns the original image
with count 0 (the partially blurred copy is discarded); `Except.error` models
a failed `load_model()`/prediction as in the other engines. -/
def mask_pii_in_image (blur : Image → Image)
    (detect : Except Unit (List Box)) (img : Image) : Image × Nat :=
  match detect with
  | .error _ => (img, 0)
  | .ok boxes =>
    if boxes.all (docRoiNonempty img.width img.height) then
      (boxes.foldl (docApply blur img.width img.height) img, boxes.length)
    else (img, 0)

end DocumentMasking

namespace DocumentMasking

/-- The input artifact of the `mask_document` route after the upload and
extension checks, as the extraction step sees it: a PDF that `fitz.open`
cannot open at all, a PDF that opens to a (possibly empty) list of rendered
pages, a raster file that `cv2.imread` cannot decode (`None`), or a decoded
raster image. -/
inductive DocInput where
  | unopenablePdf
  | pdfPages (pages : List Image)
  | unreadableImage
  | rasterImage (img : Image)

/-- The caller-visible outcome of one `mask_document` request: HTTP status,
whether the JSON body reports success, whether an output artifact was
actually written to the results folder, and the reported detection total. -/
structure MaskResponse where
  status : Nat
  success : Bool
  outputWritten : Bool
  detections : Nat

/-- `document_masking_server.images_to_pdf` (lines 59-69): converts the page
list and saves it — but only `if pil_images:` is nonempty; for an empty list
no output file is written at all.  Returns the written pages, `none` when no
file is produced. -/
def images_to_pdf (pages : List Image) : Option (List Image) :=
  if pages.isEmpty then none else some pages

/-- The `mask_document` route of `document_masking_server.py` (lines
116-178): an unopenable PDF raises inside `process_pdf_to_images` and the
outer `except` answers 500; an unreadable raster answers 400
("Could not read image file"); a decoded raster is masked, written with
`cv2.imwrite` and answered 200; a PDF is processed page by page, handed to
`images_to_pdf` and answered 200 with the accumulated `total_detections` —
even when the page list was empty and no output file exists. -/
def mask_document (blur : Image → Image)
    (detect : Image → Except Unit (List Box)) : DocInput → MaskResponse
  | .unopenablePdf => ⟨500, false, false, 0⟩
  | .unreadableImage => ⟨400, false, false, 0⟩
  | .rasterImage img =>
    let r := mask_pii_in_image blur (detect img) img
    ⟨200, true, true, r.2⟩
  | .pdfPages pages =>
    let r := processPdfPages
      (fun pg => mask_pii_in_image blur (detect pg) pg) pages
    ⟨200, true, (images_to_pdf r.1).isSome, r.2⟩

end DocumentMasking

/-- A constant `100 × 10` page with every pixel equal to 7, used as concrete
input for counterexamples and witnesses. -/
def cImg : Image := ⟨100, 10, fun _ _ => 7⟩

/-- A detection box with negative x-coordinates: spec clipping gives
`x1 = max(0,-5) = 0`, `x2 = min(100,-1) = -1`, so its post-clip width is
negative and it must be skipped — but numpy resolves the slice `[-5:-1]` of a
width-100 row to the nonempty column range `[95:99]`. -/
def negBox : Box := ⟨-5, 0, -1, 10, 9 / 10, 0⟩

/-- A concrete stand-in for the opaque blur: adds 1 to every pixel.  The
masking engines are parametric in the blur, so any image transformer can be
used to exhibit their control flow on concrete inputs. -/
def incBlur : Image → Image :=
  fun im => ⟨im.width, im.height, fun y x => im.pix y x + 1⟩

/-- Python `str.lower()`, character by character. -/
def strLower (s : String) : String :=
  ⟨s.data.map Char.toLower⟩

/-- Python substring containment, `sub in s`: some tail of `s` starts with
`sub`. -/
def strContainsSub (s sub : String) : Bool :=
  s.data.tails.any fun t => sub.data.isPrefixOf t

/-- The keyword substrings of the label interpretation in `classify_url`
(`ml_api_server.py` lines 112-117, `unified_pii_server.py` lines 148-153). -/
def kwGovernment : String := "government"

def kwAuthorized : String := "authorized"

def kwGov : String := "gov"

def kwLegitimate : String := "legitimate"

/-- Failure reason of `ml_api_server.classify_url` when the model or the
vectorizer is unset. -/
def msgNotLoaded : String := "Model not loaded"

/-- Failure reason of `unified_pii_server.classify_url` when the model or
the vectorizer is unset. -/
def msgNotLoadedMl : String := "ML model not loaded"

/-- Reason prefix of the generic `except Exception` branch of
`classify_url`. -/
def errPre : String := "Error: "

/-- Reason prefix for a label interpreted as government. -/
def safeReasonPre : String := "✅ SAFE - Legitimate government website: "

/-- Reason prefix for a label interpreted as non-government. -/
def riskyReasonPre : String := "⚠️ UNSAFE - Non-government website: "

/-- The record `classify_url` returns.  Field names follow the JSON keys of
the source; the key `isUnsafe` is modelled by the field `notSafe` (renamed
only because of lexical restrictions of this development), and
`classification` is `none` exactly on the failure paths, where the source
dict omits the key. -/
structure UrlVerdict where
  isGovernment : Bool
  confidence : Rat
  notSafe : Bool
  reason : String
  classification : Option String

namespace MlApi

/-- `ml_api_server.classify_url` (lines 84-143).  `loaded` is the negation
of the Python guard `not model or not vectorizer` (true iff both globals are
set); `infer url` summarises `vectorizer.transform([url])` followed by
`model.predict(...)[0]` and the optional `predict_proba` confidence
(`none` means the 0.8 default is used, as when `predict_proba` is missing or
raises inside the inner `try`); an `Except.error` is any exception in the
body, caught by the outer `except` branch. -/
def classify_url (loaded : Bool)
    (infer : String → Except String (String × Option Rat)) (url : String) :
    UrlVerdict :=
  if !loaded then ⟨false, 0, true, msgNotLoaded, none⟩
  else
    match infer url with
    | .error e => ⟨false, 0, true, errPre ++ e, none⟩
    | .ok (prediction, proba) =>
      let confidence : Rat := match proba with | none => 4 / 5 | some p => p
      let predStr := strLower prediction
      let isGovernment :=
        strContainsSub predStr kwGovernment ||
        strContainsSub predStr kwAuthorized ||
        strContainsSub predStr kwGov ||
        strContainsSub predStr kwLegitimate
      let reason := if isGovernment then safeReasonPre ++ prediction
        else riskyReasonPre ++ prediction
      ⟨isGovernment, confidence, !isGovernment, reason, some prediction⟩

end MlApi

namespace Unified

/-- `unified_pii_server.classify_url` (lines 121-176): textually identical
to `ml_api_server.classify_url` except for the not-loaded reason string. -/
def classify_url (loaded : Bool)
    (infer : String → Except String (String × Option Rat)) (url : String) :
    UrlVerdict :=
  if !loaded then ⟨false, 0, true, msgNotLoadedMl, none⟩
  else
    match infer url with
    | .error e => ⟨false, 0, true, errPre ++ e, none⟩
    | .ok (prediction, proba) =>
      let confidence : Rat := match proba with | none => 4 / 5 | some p => p
      let predStr := strLower prediction
      let isGovernment :=
        strContainsSub predStr kwGovernment ||
        strContainsSub predStr kwAuthorized ||
        strContainsSub predStr kwGov ||
        strContainsSub predStr kwLegitimate
      let reason := if isGovernment then safeReasonPre ++ prediction
        else riskyReasonPre ++ prediction
      ⟨isGovernment, confidence, !isGovernment, reason, some prediction⟩

end Unified

/-- The label a model may realistically produce for a non-government site,
used to exhibit the substring quirk of the interpretation step. -/
def labelNonGov : String := "non-government"

/-- A sample URL for witnesses; its content is irrelevant to the properties
proved about `classify_url`. -/
def urlSample : String := "https://pmindia.gov.in"

/-- A box lying fully inside a `100 × 50` page. -/
def inBox : Box := ⟨10, 10, 60, 60, 9 / 10, 0⟩

/-- A box lying fully to the right of a width-100 page: post-clip width is
nonpositive, so the clipped engines must skip it. -/
def outBox : Box := ⟨200, 0, 300, 10, 9 / 10, 0⟩

/-- Membership of the pixel at column `x`, row `y` in the clipped rectangle
of box `b` on a `w × h` page (the region the clipped engines write when the
box survives clipping). -/
def inClipRect (w h : Nat) (b : Box) (x y : Nat) : Bool :=
  decide ((max 0 b.x1).toNat ≤ x) &&
  decide (x < (min (w : Int) b.x2).toNat) &&
  decide ((max 0 b.y1).toNat ≤ y) &&
  decide (y < (min (h : Int) b.y2).toNat)

/-- A pointwise image transformer: applies `g` to every pixel.  The masking
engines take the blur as an opaque parameter, so instantiating it with a
pointwise map exhibits how repeated applications compose on overlapping
boxes. -/
def pointwiseBlur (g : Int → Int) : Image → Image :=
  fun im => ⟨im.width, im.height, fun y x => g (im.pix y x)⟩

/-- A box strictly inside `cImg`, away from the pixel `(0, 0)`. -/
def midBox : Box := ⟨2, 2, 5, 5, 9 / 10, 0⟩

namespace DocumentMasking

/-- Program counter of one server thread executing
`document_masking_server.load_model` (lines 27-38; `load_aadhar_model` and
`load_pan_model` of `unified_pii_server.py` follow the same pattern):
`start` is about to evaluate `if model is None`, `constructing` has seen
`None` and is about to run `model = YOLO(MODEL_PATH)`, `finished` has
returned. -/
inductive LoadPc where
  | start
  | constructing
  | finished

/-- Shared state of two threads concurrently calling `load_model`:
the global `model` variable (`none` = Python `None`, `some i` = the `i`-th
constructed handle) and how many times the constructor `YOLO(MODEL_PATH)`
has executed. -/
structure LoadState where
  model : Option Nat
  constructions : Nat
  pc1 : LoadPc
  pc2 : LoadPc

/-- One atomic step of thread 1 (`t = true`) or thread 2 (`t = false`).
The source puts no lock around the check-then-create sequence, so the test
`if model is None` and the construct-and-assign `model = YOLO(MODEL_PATH)`
are separate steps that other threads' steps can interleave; the
construct-and-assign itself is modelled as a single atomic step, which only
makes the model more favourable to the single-flight claim. -/
def loadStep (t : Bool) (s : LoadState) : LoadState :=
  if t then
    match s.pc1 with
    | .start =>
      match s.model with
      | some _ => { s with pc1 := .finished }
      | none => { s with pc1 := .constructing }
    | .constructing =>
      { s with model := some s.constructions,
               constructions := s.constructions + 1, pc1 := .finished }
    | .finished => s
  else
    match s.pc2 with
    | .start =>
      match s.model with
      | some _ => { s with pc2 := .finished }
      | none => { s with pc2 := .constructing }
    | .constructing =>
      { s with model := some s.constructions,
               constructions := s.constructions + 1, pc2 := .finished }
    | .finished => s

/-- Run an interleaving: the schedule lists which thread takes each step. -/
def loadRun (sched : List Bool) (s : LoadState) : LoadState :=
  sched.foldl (fun s t => loadStep t s) s

/-- First access: the model global is unset and both threads are about to
execute `load_model`. -/
def loadInit : LoadState := ⟨none, 0, .start, .start⟩

end DocumentMasking

theorem survivesClip_eq_true (w h : Nat) (b : Box) :
    survivesClip w h b = true ↔
      max 0 b.x1 < min (w : Int) b.x2 ∧ max 0 b.y1 < min (h : Int) b.y2 := by
  simp [survivesClip]

theorem maskLoop_count (blur : Image → Image) (w h : Nat) :
    ∀ (boxes : List Box) (acc : Image) (cnt : Nat),
      (PanMasking.maskLoop blur w h acc cnt boxes).2
        = cnt + countSurvived w h boxes
  | [], acc, cnt => by simp [PanMasking.maskLoop, countSurvived]
  | b :: rest, acc, cnt => by
    have hx0 : (0 : Int) ≤ max 0 b.x1 := le_max_left 0 b.x1
    have hy0 : (0 : Int) ≤ max 0 b.y1 := le_max_left 0 b.y1
    simp only [PanMasking.maskLoop]
    by_cases hb : min (w : Int) b.x2 > max 0 b.x1 ∧ min (h : Int) b.y2 > max 0 b.y1
    · rw [if_pos hb, if_pos, maskLoop_count blur w h rest _ _]
      · have hs : survivesClip w h b = true :=
          (survivesClip_eq_true w h b).mpr ⟨hb.1, hb.2⟩
        simp only [countSurvived, hs, if_pos]
        omega
      · refine Nat.mul_pos ?_ ?_ <;> · show 0 < _ - _; omega
    · rw [if_neg hb, maskLoop_count blur w h rest _ _]
      have hs : survivesClip w h b = false := by
        rw [Bool.eq_false_iff]
        intro hc
        exact hb ((survivesClip_eq_true w h b).mp hc)
      simp [countSurvived, hs]

/-- Claim C3: masking a page with an empty set of detection boxes returns the
page byte-identical (the very same pixel buffer, since the working copy is
never written), with detection count 0, in all three masking engines. -/
theorem C3_empty_boxes_identity (blur : Image → Image) (img : Image) :
    PanMasking.mask_pan_in_image blur (.ok []) img = (img, 0) ∧
    Unified.mask_pii_in_image blur (.ok []) img = (img, 0) ∧
    DocumentMasking.mask_pii_in_image blur (.ok []) img = (img, 0) := by
  refine ⟨rfl, rfl, rfl⟩

/-- Claim C4: when the detector model cannot be loaded (`ModelUnavailable`,
modelled as `Except.error`), every page of the document comes back unmodified
and the dispatcher's `total_detections` is 0; the failure is absorbed by the
engine's `except` branch (the embedding is a total function, so no exception
propagates). -/
theorem C4_model_unavailable_degrades (blur : Image → Image)
    (pages : List Image) (img : Image) :
    processPdfPages
      (fun pg => Unified.mask_pii_in_image blur (Except.error ()) pg) pages
      = (pages, 0) ∧
    PanMasking.mask_pan_in_image blur (Except.error ()) img = (img, 0) := by
  refine ⟨?_, rfl⟩
  induction pages with
  | nil => rfl
  | cons pg rest ih =>
    simp only [processPdfPages, Unified.mask_pii_in_image] at ih ⊢
    rw [ih]
    rfl

theorem mask_pii_page_count (blur : Image → Image)
    (detect : Image → Except Unit (List Box)) (img : Image) :
    (Unified.mask_pii_in_image blur (detect img) img).2
      = specPageCount detect img := by
  rcases hd : detect img with e | boxes
  · simp [Unified.mask_pii_in_image, specPageCount, hd]
  · simp only [Unified.mask_pii_in_image, specPageCount, hd]
    simpa using maskLoop_count blur img.width img.height boxes img 0

/-- Claim C1 (amended): for the dispatchers built on the clipped masking
engine (`unified_pii_server.mask_pii_in_image`, identical to
`pan_masking_server.mask_pan_in_image`), the returned `total_detections`
equals the sum, over all pages, of the number of boxes that survived
clipping on that page — and in that engine a box is blurred exactly when it
survives clipping, so these are also the boxes actually blurred.  The claim
is false for `document_masking_server` (see the counterexample), whose
engine counts `len(boxes)` without any clipping. -/
theorem C1_count_correctness (blur : Image → Image)
    (detect : Image → Except Unit (List Box)) (pages : List Image) :
    (processPdfPages
        (fun pg => Unified.mask_pii_in_image blur (detect pg) pg) pages).2
      = (pages.map (specPageCount detect)).sum := by
  induction pages with
  | nil => rfl
  | cons pg rest ih =>
    simp only [processPdfPages, List.map_cons, List.sum_cons]
    rw [← ih, ← mask_pii_page_count blur detect pg]

/-- Claim C1 counterexample: on a single-image document whose detector
reports the one box `(-5, 0, -1, 10)`, the `document_masking_server`
dispatcher returns `total_detections = 1`, while no box on the page survives
clipping (post-clip width is `min(100, -1) - max(0, -5) = -1`), so the sum
the claim prescribes is 0.  The box is counted — and blurred at the
numpy-wrapped column range `[95:99]` — despite failing clipping. -/
theorem C1_counterexample :
    (DocumentMasking.mask_document incBlur (fun _ => Except.ok [negBox])
        (DocumentMasking.DocInput.rasterImage cImg)).detections = 1 ∧
    specPageCount (fun _ => Except.ok [negBox]) cImg = 0 := by
  refine ⟨by decide, by decide⟩

/-- Claim C2 (amended): in the clipped masking engines
(`pan_masking_server.mask_pan_in_image` and the identical
`unified_pii_server.mask_pii_in_image`), every applied box is first clipped
to `0 ≤ x1 < x2 ≤ width` and `0 ≤ y1 < y2 ≤ height`, so every ROI slice lies
within the page buffer, and a box whose post-clip width or height is
nonpositive is skipped entirely — the loop iteration neither touches the
page nor increments the count.  The claim is false for
`document_masking_server`, which never clips (see the counterexample). -/
theorem C2_clip_bounds_and_skip (w h : Nat) (b : Box) :
    (survivesClip w h b = true →
      0 ≤ max 0 b.x1 ∧ max 0 b.x1 < min (w : Int) b.x2 ∧
        min (w : Int) b.x2 ≤ (w : Int) ∧
      0 ≤ max 0 b.y1 ∧ max 0 b.y1 < min (h : Int) b.y2 ∧
        min (h : Int) b.y2 ≤ (h : Int)) ∧
    (survivesClip w h b = false → ∀ (blur : Image → Image) (acc : Image)
        (cnt : Nat) (rest : List Box),
      PanMasking.maskLoop blur w h acc cnt (b :: rest)
        = PanMasking.maskLoop blur w h acc cnt rest) := by
  constructor
  · intro hs
    obtain ⟨h1, h2⟩ := (survivesClip_eq_true w h b).mp hs
    exact ⟨le_max_left _ _, h1, min_le_left _ _,
      le_max_left _ _, h2, min_le_left _ _⟩
  · intro hs blur acc cnt rest
    have hn : ¬ (min (w : Int) b.x2 > max 0 b.x1 ∧
        min (h : Int) b.y2 > max 0 b.y1) := by
      intro hc
      have ht := (survivesClip_eq_true w h b).mpr ⟨hc.1, hc.2⟩
      rw [ht] at hs
      exact Bool.noConfusion hs
    simp only [PanMasking.maskLoop]
    rw [if_neg hn]

theorem C2_clip_bounds_and_skip_witness :
    (0 ≤ max 0 inBox.x1 ∧ max 0 inBox.x1 < min (100 : Int) inBox.x2 ∧
      min (100 : Int) inBox.x2 ≤ (100 : Int) ∧
     0 ≤ max 0 inBox.y1 ∧ max 0 inBox.y1 < min (50 : Int) inBox.y2 ∧
      min (50 : Int) inBox.y2 ≤ (50 : Int)) ∧
    PanMasking.maskLoop incBlur 100 10 cImg 0 [outBox]
      = PanMasking.maskLoop incBlur 100 10 cImg 0 [] :=
  ⟨(C2_clip_bounds_and_skip 100 50 inBox).1 (by decide),
   (C2_clip_bounds_and_skip 100 10 outBox).2 (by decide) incBlur cImg 0 []⟩

/-- Claim C2 counterexample: in `document_masking_server.mask_pii_in_image`
the box `(-5, 0, -1, 10)` has nonpositive post-clip width, yet it is not
skipped: the detection count is incremented to 1 and the page pixel at row
0, column 95 is overwritten (numpy resolves the slice `[-5:-1]` to
`[95:99]`), contradicting "no pixel access, no count increment". -/
theorem C2_counterexample :
    survivesClip cImg.width cImg.height negBox = false ∧
    (DocumentMasking.mask_pii_in_image incBlur (Except.ok [negBox]) cImg).2
      = 1 ∧
    (DocumentMasking.mask_pii_in_image incBlur
        (Except.ok [negBox]) cImg).1.pix 0 95 ≠ cImg.pix 0 95 := by
  refine ⟨by decide, by decide, by decide⟩

/-- Claim C7: whenever the classifier or vectorizer is unset, and likewise
whenever inference raises, both `classify_url` implementations return the
fail-closed record — not government (JSON `isGovernment = false`),
confidence 0.0, flagged unsafe (JSON `isUnsafe = true`, field `notSafe`
here) — regardless of the url. -/
theorem C7_fail_closed (loaded : Bool)
    (infer : String → Except String (String × Option Rat)) (url : String)
    (hfail : loaded = false ∨ ∃ e, infer url = Except.error e) :
    ((MlApi.classify_url loaded infer url).isGovernment = false ∧
     (MlApi.classify_url loaded infer url).confidence = 0 ∧
     (MlApi.classify_url loaded infer url).notSafe = true) ∧
    ((Unified.classify_url loaded infer url).isGovernment = false ∧
     (Unified.classify_url loaded infer url).confidence = 0 ∧
     (Unified.classify_url loaded infer url).notSafe = true) := by
  cases loaded with
  | false => exact ⟨⟨rfl, rfl, rfl⟩, ⟨rfl, rfl, rfl⟩⟩
  | true =>
    rcases hfail with h | ⟨e, h⟩
    · exact absurd h (by simp)
    · simp [MlApi.classify_url, Unified.classify_url, h]

theorem C7_fail_closed_witness :
    ((MlApi.classify_url false
        (fun _ => Except.ok (labelNonGov, none)) urlSample).isGovernment
          = false ∧
     (MlApi.classify_url false
        (fun _ => Except.ok (labelNonGov, none)) urlSample).confidence = 0 ∧
     (MlApi.classify_url false
        (fun _ => Except.ok (labelNonGov, none)) urlSample).notSafe
          = true) ∧
    ((Unified.classify_url false
        (fun _ => Except.ok (labelNonGov, none)) urlSample).isGovernment
          = false ∧
     (Unified.classify_url false
        (fun _ => Except.ok (labelNonGov, none)) urlSample).confidence
          = 0 ∧
     (Unified.classify_url false
        (fun _ => Except.ok (labelNonGov, none)) urlSample).notSafe
          = true) :=
  C7_fail_closed false (fun _ => Except.ok (labelNonGov, none)) urlSample
    (Or.inl rfl)

/-- Claim C10: when the classifier is loaded and inference succeeds with
label `label`, both `classify_url` implementations report government (and
hence safe) exactly when the lowercased label contains one of the
substrings "government", "authorized", "gov", "legitimate"; consequently any
label containing "gov" — including "non-government" (see the witness) — is
classified as trusted and safe. -/
theorem C10_label_interpretation
    (infer : String → Except String (String × Option Rat)) (url : String)
    (label : String) (proba : Option Rat)
    (h : infer url = Except.ok (label, proba)) :
    ((MlApi.classify_url true infer url).isGovernment =
        (strContainsSub (strLower label) kwGovernment ||
         strContainsSub (strLower label) kwAuthorized ||
         strContainsSub (strLower label) kwGov ||
         strContainsSub (strLower label) kwLegitimate) ∧
     (MlApi.classify_url true infer url).notSafe
        = !(MlApi.classify_url true infer url).isGovernment ∧
     (Unified.classify_url true infer url).isGovernment
        = (MlApi.classify_url true infer url).isGovernment ∧
     (Unified.classify_url true infer url).notSafe
        = (MlApi.classify_url true infer url).notSafe) ∧
    (strContainsSub (strLower label) kwGov = true →
      (MlApi.classify_url true infer url).isGovernment = true ∧
      (MlApi.classify_url true infer url).notSafe = false ∧
      (Unified.classify_url true infer url).isGovernment = true ∧
      (Unified.classify_url true infer url).notSafe = false) := by
  constructor
  · simp [MlApi.classify_url, Unified.classify_url, h]
  · intro hg
    simp [MlApi.classify_url, Unified.classify_url, h, hg]

theorem C10_label_interpretation_witness :
    (MlApi.classify_url true (fun _ => Except.ok (labelNonGov, none))
        urlSample).isGovernment = true ∧
    (MlApi.classify_url true (fun _ => Except.ok (labelNonGov, none))
        urlSample).notSafe = false ∧
    (Unified.classify_url true (fun _ => Except.ok (labelNonGov, none))
        urlSample).isGovernment = true ∧
    (Unified.classify_url true (fun _ => Except.ok (labelNonGov, none))
        urlSample).notSafe = false :=
  (C10_label_interpretation (fun _ => Except.ok (labelNonGov, none))
      urlSample labelNonGov none rfl).2 (by decide)

theorem inClipRect_iff (w h : Nat) (b : Box) (x y : Nat) :
    inClipRect w h b x y = true ↔
      ((max 0 b.x1).toNat ≤ x ∧ x < (min (w : Int) b.x2).toNat ∧
       (max 0 b.y1).toNat ≤ y ∧ y < (min (h : Int) b.y2).toNat) := by
  simp [inClipRect]
  tauto

theorem maskLoop_frame (blur : Image → Image) (w h : Nat) :
    ∀ (boxes : List Box) (acc : Image) (cnt : Nat) (x y : Nat),
      (∀ b ∈ boxes, inClipRect w h b x y = false) →
      (PanMasking.maskLoop blur w h acc cnt boxes).1.pix y x = acc.pix y x
  | [], acc, cnt, x, y, _ => rfl
  | b :: rest, acc, cnt, x, y, hout => by
    have hrest : ∀ b ∈ rest, inClipRect w h b x y = false :=
      fun c hc => hout c (List.mem_cons_of_mem b hc)
    have hb : inClipRect w h b x y = false := hout b (List.mem_cons_self b rest)
    have hb' : ¬ ((max 0 b.x1).toNat ≤ x ∧ x < (min (w : Int) b.x2).toNat ∧
        (max 0 b.y1).toNat ≤ y ∧ y < (min (h : Int) b.y2).toNat) := by
      intro hc
      rw [(inClipRect_iff w h b x y).mpr hc] at hb
      exact Bool.noConfusion hb
    simp only [PanMasking.maskLoop]
    split
    · split
      · rw [maskLoop_frame blur w h rest _ _ _ _ hrest]
        simp only [writeRoi]
        rw [if_neg]
        intro hc
        exact hb' ⟨hc.1, hc.2.1, hc.2.2.1, hc.2.2.2⟩
      · exact maskLoop_frame blur w h rest _ _ _ _ hrest
    · exact maskLoop_frame blur w h rest _ _ _ _ hrest

/-- Claim C5: after masking, every pixel lying outside all clipped box
regions is bit-identical to the corresponding pixel of the input page, for
any blur whatsoever — the loop writes only inside the clipped rectangles of
the boxes (and only surviving boxes are written at all, so lying outside
every clipped rectangle is enough). -/
theorem C5_frame_effect (blur : Image → Image) (img : Image)
    (boxes : List Box) (x y : Nat)
    (hout : ∀ b ∈ boxes, inClipRect img.width img.height b x y = false) :
    (Unified.mask_pii_in_image blur (.ok boxes) img).1.pix y x
       = img.pix y x ∧
    (PanMasking.mask_pan_in_image blur (.ok boxes) img).1.pix y x
       = img.pix y x :=
  ⟨maskLoop_frame blur img.width img.height boxes img 0 x y hout,
   maskLoop_frame blur img.width img.height boxes img 0 x y hout⟩

theorem C5_frame_effect_witness :
    (Unified.mask_pii_in_image incBlur (.ok [midBox]) cImg).1.pix 0 0
       = cImg.pix 0 0 ∧
    (PanMasking.mask_pan_in_image incBlur (.ok [midBox]) cImg).1.pix 0 0
       = cImg.pix 0 0 :=
  C5_frame_effect incBlur cImg [midBox] 0 0 (by decide)

theorem maskLoop_cons_pos (blur : Image → Image) (w h : Nat) (acc : Image)
    (cnt : Nat) (b : Box) (rest : List Box)
    (hb : survivesClip w h b = true) :
    PanMasking.maskLoop blur w h acc cnt (b :: rest)
      = PanMasking.maskLoop blur w h
          (writeRoi acc (max 0 b.x1).toNat (max 0 b.y1).toNat
            (min (w : Int) b.x2).toNat (min (h : Int) b.y2).toNat
            (blur (extractRoi acc (max 0 b.x1).toNat (max 0 b.y1).toNat
              (min (w : Int) b.x2).toNat (min (h : Int) b.y2).toNat)))
          (cnt + 1) rest := by
  obtain ⟨h1, h2⟩ := (survivesClip_eq_true w h b).mp hb
  have hx0 : (0 : Int) ≤ max 0 b.x1 := le_max_left 0 b.x1
  have hy0 : (0 : Int) ≤ max 0 b.y1 := le_max_left 0 b.y1
  simp only [PanMasking.maskLoop]
  rw [if_pos ⟨h1, h2⟩, if_pos]
  refine Nat.mul_pos ?_ ?_ <;> · show 0 < _ - _; omega

theorem writeRoi_pointwise_pix (g : Int → Int) (acc : Image)
    (a1 b1 a2 b2 x y : Nat) (hx : a1 ≤ x ∧ x < a2) (hy : b1 ≤ y ∧ y < b2) :
    (writeRoi acc a1 b1 a2 b2
        (pointwiseBlur g (extractRoi acc a1 b1 a2 b2))).pix y x
      = g (acc.pix y x) := by
  simp only [writeRoi, pointwiseBlur, extractRoi]
  rw [if_pos ⟨hx.1, hx.2, hy.1, hy.2⟩]
  have hy' : b1 + (y - b1) = y := by omega
  have hx' : a1 + (x - a1) = x := by omega
  rw [hy', hx']

theorem maskLoop_single_pointwise (g : Int → Int) (w h : Nat)
    (acc : Image) (cnt : Nat) (b : Box) (hb : survivesClip w h b = true)
    (x y : Nat) (hin : inClipRect w h b x y = true) :
    (PanMasking.maskLoop (pointwiseBlur g) w h acc cnt [b]).1.pix y x
      = g (acc.pix y x) := by
  obtain ⟨h1, h2, h3, h4⟩ := (inClipRect_iff w h b x y).mp hin
  rw [maskLoop_cons_pos (pointwiseBlur g) w h acc cnt b [] hb]
  simp only [PanMasking.maskLoop]
  exact writeRoi_pointwise_pix g acc _ _ _ _ x y ⟨h1, h2⟩ ⟨h3, h4⟩

set_option maxHeartbeats 1000000 in
/-- Claim C6: boxes are blurred independently, strictly in detector output
order, with no merging or deduplication: when `[A, B]` is processed with the
clipped region of `B` contained in that of `A`, each blur reads the page as
modified by the earlier boxes, so with a pointwise blur `g` every pixel in
`B`'s region ends as `g (g (original))` — double-blurred, not
single-blurred. -/
theorem C6_overlap_double_blur (g : Int → Int) (img : Image) (A B : Box)
    (hA : survivesClip img.width img.height A = true)
    (hB : survivesClip img.width img.height B = true)
    (hsub : max 0 A.x1 ≤ max 0 B.x1 ∧
      min (img.width : Int) B.x2 ≤ min (img.width : Int) A.x2 ∧
      max 0 A.y1 ≤ max 0 B.y1 ∧
      min (img.height : Int) B.y2 ≤ min (img.height : Int) A.y2)
    (x y : Nat) (hin : inClipRect img.width img.height B x y = true) :
    (Unified.mask_pii_in_image (pointwiseBlur g) (.ok [A, B]) img).1.pix y x
      = g (g (img.pix y x)) := by
  obtain ⟨hbx1, hbx2, hby1, hby2⟩ :=
    (inClipRect_iff img.width img.height B x y).mp hin
  obtain ⟨hs1, hs2, hs3, hs4⟩ := hsub
  have hA0x : (0 : Int) ≤ max 0 A.x1 := le_max_left 0 A.x1
  have hA0y : (0 : Int) ≤ max 0 A.y1 := le_max_left 0 A.y1
  have hB0x : (0 : Int) ≤ max 0 B.x1 := le_max_left 0 B.x1
  have hB0y : (0 : Int) ≤ max 0 B.y1 := le_max_left 0 B.y1
  have hax1 : (max 0 A.x1).toNat ≤ x := by omega
  have hax2 : x < (min (img.width : Int) A.x2).toNat := by omega
  have hay1 : (max 0 A.y1).toNat ≤ y := by omega
  have hay2 : y < (min (img.height : Int) A.y2).toNat := by omega
  simp only [Unified.mask_pii_in_image]
  rw [maskLoop_cons_pos (pointwiseBlur g) img.width img.height img 0 A [B]
      hA]
  refine Eq.trans
    (maskLoop_single_pointwise g img.width img.height _ 1 B hB x y hin) ?_
  rw [writeRoi_pointwise_pix g img _ _ _ _ x y ⟨hax1, hax2⟩ ⟨hay1, hay2⟩]

theorem C6_overlap_double_blur_witness :
    (Unified.mask_pii_in_image (pointwiseBlur (fun v => v + 1))
        (.ok [⟨0, 0, 8, 8, 9 / 10, 0⟩, midBox]) cImg).1.pix 3 3
      = (fun v => v + 1) ((fun v => v + 1) (cImg.pix 3 3)) :=
  C6_overlap_double_blur (fun v => v + 1) cImg ⟨0, 0, 8, 8, 9 / 10, 0⟩
    midBox (by decide) (by decide) (by decide) 3 3 (by decide)

/-- Claim C8 evaluation at the failing input: a PDF container that opens
successfully but renders zero pages is answered by `mask_document` with HTTP
200, `success = true` and `total_detections = 0`, while no output file is
written (`images_to_pdf` skips its save for an empty list) — a silent
success with a dangling download link instead of the `UnreadableDocument`
rejection the specification requires.  The code contradicts its own success
response, which advertises an output file that does not exist; this
supports the code_bug verdict rather than an amendment of the claim. -/
theorem C8_zero_page_pdf_silent_success (blur : Image → Image)
    (detect : Image → Except Unit (List Box)) :
    DocumentMasking.mask_document blur detect
        (DocumentMasking.DocInput.pdfPages [])
      = ⟨200, true, false, 0⟩ := rfl

/-- Claim C9 evaluation at the failing interleaving: `load_model` guards
construction only by the unlocked test `if model is None`, so with two
threads both at first access, the schedule (thread 1 checks, thread 2
checks, thread 1 constructs and assigns, thread 2 constructs and assigns)
executes the model constructor twice — the single-flight /
at-most-one-initialization guarantee claimed for the registry does not hold
of the code.  Both threads finish, and the second construction's handle
overwrites the first. -/
theorem C9_double_construction :
    (DocumentMasking.loadRun [true, false, true, false]
        DocumentMasking.loadInit).constructions = 2 ∧
    (DocumentMasking.loadRun [true, false, true, false]
        DocumentMasking.loadInit).model = some 1 := by
  refine ⟨rfl, rfl⟩
